import Mathlib

/-!
Shallow embedding of the nodeprop repository's event-driven manager core:
the TTL cache (pkg/nodeprop/cache.go), the event bus (pkg/nodeprop/event.go,
consumer-bearing iteration), and the manager orchestration
(pkg/nodeprop/manager.go: AddWorkflow, AddSecret, GenerateNodeProp).

Go maps are embedded as association lists (key listed at most once in every
state the operations produce; a nodup-keys hypothesis is stated where a proof
needs it).  Go iteration order over a map is randomized; the list order here
is a deterministic stand-in, which only matters for tie-breaking in the
eviction scan.  time.Time values and time.Duration values are embedded as
Int (UnixNano); the zero time is 0.  interface-typed payloads are embedded
as a type parameter or as an explicit sum type.
-/

/-- CacheItem from cache.go: Value (opaque payload) and Expiration (UnixNano,
0 means no expiry, set only when the effective duration is positive). -/
structure CacheItem (V : Type) where
  value : V
  expiration : Int
deriving DecidableEq, Repr

/-- CacheStats from cache.go: Hits, Misses, Evictions, Size (uint64 counters;
they stay far below 2 to the 64 in any reachable state, so Nat is used). -/
structure CacheStats where
  hits : Nat
  misses : Nat
  evictions : Nat
  size : Nat
deriving DecidableEq, Repr

/-- Cache from cache.go: items map, default expiration, max item bound and
statistics.  cleanupInterval only drives the background goroutine's schedule
and plays no part in any single operation, so it is omitted. -/
structure Cache (V : Type) where
  items : List (String × CacheItem V)
  defaultExpiration : Int
  maxItems : Int
  stats : CacheStats
deriving DecidableEq, Repr

/-- Lookup of a key in the items association list (Go map read). -/
def lookupItem (items : List (String × CacheItem V)) (key : String) :
    Option (CacheItem V) :=
  match items.find? (fun kv => kv.1 == key) with
  | some kv => some kv.2
  | none => none

/-- Go map assignment: replace the entry when the key is present, otherwise
append a new entry. -/
def insertItem (items : List (String × CacheItem V)) (key : String)
    (item : CacheItem V) : List (String × CacheItem V) :=
  match items with
  | [] => [(key, item)]
  | kv :: rest =>
    if kv.1 == key then (key, item) :: rest
    else kv :: insertItem rest key item

/-- Go map deletion: remove the entry with the given key. -/
def eraseKey (items : List (String × CacheItem V)) (key : String) :
    List (String × CacheItem V) :=
  items.filter (fun kv => kv.1 != key)

/-- Keys of the items list are pairwise distinct (invariant of a Go map). -/
def keysNodup (items : List (String × CacheItem V)) : Prop :=
  (items.map Prod.fst).Nodup

/-- Largest int64 value, the initial oldestTime of evictOldest. -/
def maxInt64 : Int := 9223372036854775807

/-- Selection loop of evictOldest from cache.go: scan the items for the entry
with the smallest Expiration (strictly smaller than the best so far, so the
first minimal entry in iteration order wins), starting from the sentinel pair
of the empty key and math.MaxInt64. -/
def oldestScan (items : List (String × CacheItem V)) : String × Int :=
  items.foldl
    (fun acc kv => if kv.2.expiration < acc.2 then (kv.1, kv.2.expiration) else acc)
    ("", maxInt64)

/-- Cache.evictOldest from cache.go: delete the scanned entry and count one
eviction, but only when the scanned key differs from the empty-string
sentinel.  Size is not updated here (Set updates it afterwards). -/
def Cache.evictOldest (c : Cache V) : Cache V :=
  let res := oldestScan c.items
  if res.1 != "" then
    { c with
      items := eraseKey c.items res.1
      stats := { c.stats with evictions := c.stats.evictions + 1 } }
  else c

/-- Effective expiration computed by Cache.Set: a zero duration is replaced
by the default, and only a positive effective duration yields an absolute
expiration (otherwise it stays 0, the no-expiry sentinel). -/
def setExpiration (c : Cache V) (duration now : Int) : Int :=
  let d := if duration = 0 then c.defaultExpiration else duration
  if d > 0 then now + d else 0

/-- Cache.Set from cache.go: compute the expiration, evict once when the item
count is at or above maxItems, then assign the key and refresh Size. -/
def Cache.set (c : Cache V) (key : String) (value : V) (duration now : Int) :
    Cache V :=
  let expiration := setExpiration c duration now
  let c1 := if (c.items.length : Int) ≥ c.maxItems then c.evictOldest else c
  let items1 := insertItem c1.items key ⟨value, expiration⟩
  { c1 with
    items := items1
    stats := { c1.stats with size := items1.length } }

/-- Cache.Get from cache.go: a missing key or an entry whose positive
expiration lies strictly in the past counts a miss and returns nothing;
otherwise the value is returned and a hit is counted.  The items are never
touched. -/
def Cache.get (c : Cache V) (key : String) (now : Int) : Option V × Cache V :=
  match lookupItem c.items key with
  | none =>
    (none, { c with stats := { c.stats with misses := c.stats.misses + 1 } })
  | some item =>
    if item.expiration > 0 ∧ now > item.expiration then
      (none, { c with stats := { c.stats with misses := c.stats.misses + 1 } })
    else
      (some item.value, { c with stats := { c.stats with hits := c.stats.hits + 1 } })

/-- Cache.Delete from cache.go: remove the key and refresh Size. -/
def Cache.delete (c : Cache V) (key : String) : Cache V :=
  let items1 := eraseKey c.items key
  { c with
    items := items1
    stats := { c.stats with size := items1.length } }

/-- Cache.Clear from cache.go: drop all items and zero the Size. -/
def Cache.clear (c : Cache V) : Cache V :=
  { c with items := [], stats := { c.stats with size := 0 } }

/-- Expiry test used by Cache.DeleteExpired and shared by the statements
below: a positive expiration strictly in the past. -/
def expiredAt (now : Int) (item : CacheItem V) : Bool :=
  item.expiration > 0 && now > item.expiration

/-- Loop body of Cache.DeleteExpired: delete the visited entry and count one
eviction when it has expired, otherwise leave the cache alone. -/
def sweepStep (now : Int) (acc : Cache V) (kv : String × CacheItem V) : Cache V :=
  if expiredAt now kv.2 then
    { acc with
      items := eraseKey acc.items kv.1
      stats := { acc.stats with evictions := acc.stats.evictions + 1 } }
  else acc

/-- Cache.DeleteExpired from cache.go: range over the items, deleting each
expired entry and counting one eviction per deletion, then refresh Size.
The range runs over the entry list as it stood on entry, matching Go's
guarantee that a range visits each key at most once and never visits a key
deleted before being reached (only the visited key is ever deleted here). -/
def Cache.deleteExpired (c : Cache V) (now : Int) : Cache V :=
  let c1 := c.items.foldl (sweepStep now) c
  { c1 with stats := { c1.stats with size := c1.items.length } }

/-- Cache with no items and zeroed statistics, the state NewCache builds
(defaults: one hour default expiration, 10000 max items). -/
def newCache (V : Type) : Cache V :=
  { items := []
    defaultExpiration := 3600000000000
    maxItems := 10000
    stats := { hits := 0, misses := 0, evictions := 0, size := 0 } }

/-- Lookup after a Go map assignment of the same key yields the new item. -/
theorem lookupItem_insertItem (items : List (String × CacheItem V)) (key : String)
    (item : CacheItem V) : lookupItem (insertItem items key item) key = some item := by
  induction items with
  | nil => simp [insertItem, lookupItem]
  | cons kv rest ih =>
    by_cases h : kv.1 = key
    · simp [insertItem, h, lookupItem]
    · simpa [insertItem, h, lookupItem, List.find?_cons] using ih

/-- Cache at capacity one holding the single entry with the empty-string key,
reached from a fresh cache by one Set call. -/
def cacheC1full : Cache Nat :=
  Cache.set { newCache Nat with maxItems := 1 } "" 0 5 0

/-- State after a further Set on the full cache cacheC1full. -/
def cacheC1after : Cache Nat := cacheC1full.set "x" 7 100 0

/-- C1: evaluation of Cache.Set at the failing input.  cacheC1full is at
capacity (1 entry, maxItems 1) and its soonest-to-expire entry has the
empty-string key, which collides with evictOldest's found-a-victim sentinel:
the subsequent Set evicts nothing (eviction counter unchanged) and leaves the
cache with 2 entries, above maxItems, contradicting the claim that exactly
one victim is evicted and that afterwards the size is at most maxItems. -/
theorem cache_set_full_empty_key_no_eviction :
    cacheC1full.items = [("", ⟨0, 5⟩)] ∧
    (cacheC1full.items.length : Int) ≥ cacheC1full.maxItems ∧
    cacheC1after.items.length = 2 ∧
    cacheC1after.stats.evictions = cacheC1full.stats.evictions ∧
    ¬ ((cacheC1after.items.length : Int) ≤ cacheC1after.maxItems) := by
  decide

/-- Cache holding one entry with expiration 100, set with a positive ttl. -/
def cacheC4 : Cache Nat := (newCache Nat).set "k" 7 100 0

/-- C4 counterexample: the entry expires at 100, and a read at exactly
time 100 (a time greater than or equal to expiresAt) still returns the
stored value and counts a hit, where the claim demands not-found and a miss.
The lazy expiry test of Cache.Get is strict: now > Expiration. -/
theorem cache_get_hit_at_exact_expiry :
    lookupItem cacheC4.items "k" = some ⟨7, 100⟩ ∧
    (cacheC4.get "k" 100).1 = some 7 ∧
    (cacheC4.get "k" 100).2.stats.hits = cacheC4.stats.hits + 1 := by
  decide

/-- C4 amended: for an entry stored with positive ttl d at a nonnegative
time t, Get misses (and counts a miss) exactly for reads strictly after
t + d, and hits (returning the stored value and counting a hit) for reads at
or before t + d; the boundary instant t + d itself is a hit, not a miss. -/
theorem cache_get_ttl_semantics (c : Cache V) (key : String) (v : V)
    (d t now : Int) (hd : 0 < d) (ht : 0 ≤ t) :
    (t + d < now →
      (c.set key v d t).get key now =
        (none, { c.set key v d t with
                 stats := { (c.set key v d t).stats with
                            misses := (c.set key v d t).stats.misses + 1 } })) ∧
    (now ≤ t + d →
      (c.set key v d t).get key now =
        (some v, { c.set key v d t with
                   stats := { (c.set key v d t).stats with
                              hits := (c.set key v d t).stats.hits + 1 } })) := by
  have hexp : setExpiration c d t = t + d := by
    unfold setExpiration
    have hne : ¬ d = 0 := by omega
    simp [hne]
    omega
  have hlook : lookupItem (c.set key v d t).items key = some ⟨v, t + d⟩ := by
    unfold Cache.set
    simp only [hexp]
    by_cases hfull : (c.items.length : Int) ≥ c.maxItems <;>
      simp [hfull, lookupItem_insertItem]
  constructor
  · intro hnow
    have hcond : ((⟨v, t + d⟩ : CacheItem V).expiration > 0 ∧ now > (⟨v, t + d⟩ : CacheItem V).expiration) := by
      constructor
      · simp; omega
      · simpa using hnow
    simp [Cache.get, hlook, hcond]
  · intro hnow
    have hcond : ¬ ((⟨v, t + d⟩ : CacheItem V).expiration > 0 ∧ now > (⟨v, t + d⟩ : CacheItem V).expiration) := by
      simp
      intro _
      omega
    simp [Cache.get, hlook, hcond]

/-- Cache holding one entry with expiration 5, used by witnesses below. -/
def cacheW4 : Cache Nat := (newCache Nat).set "k" 7 5 0

/-- Witness for cache_get_ttl_semantics at a concrete input. -/
theorem cache_get_ttl_semantics_witness :
    (0 : Int) < 5 ∧ (0 : Int) ≤ 0 ∧
    (((0 : Int) + 5 < 3 →
      cacheW4.get "k" 3 =
        (none, { cacheW4 with
                 stats := { cacheW4.stats with misses := cacheW4.stats.misses + 1 } })) ∧
     ((3 : Int) ≤ 0 + 5 →
      cacheW4.get "k" 3 =
        (some 7, { cacheW4 with
                   stats := { cacheW4.stats with hits := cacheW4.stats.hits + 1 } }))) :=
  ⟨by decide, by decide,
   cache_get_ttl_semantics (newCache Nat) "k" 7 5 0 3 (by decide) (by decide)⟩

/-- C10: Cache.Get is read-only on the entry set.  For every cache, key and
read time, the items (and configuration) after a Get are exactly those
before it, so an expired entry stays stored (still counted against the
capacity bound) until some removing operation runs; a miss (absent or
expired key) bumps only the miss counter and a hit bumps only the hit
counter. -/
theorem cache_get_frame (c : Cache V) (key : String) (now : Int) :
    ((c.get key now).2).items = c.items ∧
    ((c.get key now).2).defaultExpiration = c.defaultExpiration ∧
    ((c.get key now).2).maxItems = c.maxItems ∧
    ((c.get key now).1 = none →
      ((c.get key now).2).stats = { c.stats with misses := c.stats.misses + 1 }) ∧
    (∀ v, (c.get key now).1 = some v →
      ((c.get key now).2).stats = { c.stats with hits := c.stats.hits + 1 }) ∧
    (∀ p ∈ c.items, p ∈ ((c.get key now).2).items) := by
  unfold Cache.get
  cases hl : lookupItem c.items key with
  | none => simp
  | some item =>
    by_cases hexp : item.expiration > 0 ∧ now > item.expiration
    · simp [hexp]
    · simp [hexp]

/-- Witness for cache_get_frame at a concrete input (a read of an absent
key on the one-entry cache cacheW4). -/
theorem cache_get_frame_witness :
    ((cacheW4.get "absent" 3).2).items = cacheW4.items ∧
    ((cacheW4.get "absent" 3).2).defaultExpiration = cacheW4.defaultExpiration ∧
    ((cacheW4.get "absent" 3).2).maxItems = cacheW4.maxItems ∧
    ((cacheW4.get "absent" 3).1 = none →
      ((cacheW4.get "absent" 3).2).stats =
        { cacheW4.stats with misses := cacheW4.stats.misses + 1 }) ∧
    (∀ v, (cacheW4.get "absent" 3).1 = some v →
      ((cacheW4.get "absent" 3).2).stats =
        { cacheW4.stats with hits := cacheW4.stats.hits + 1 }) ∧
    (∀ p ∈ cacheW4.items, p ∈ ((cacheW4.get "absent" 3).2).items) :=
  cache_get_frame cacheW4 "absent" 3

/-- Eviction count of the sweep loop: one eviction per expired entry of the
visited list, whatever the accumulator holds. -/
theorem sweep_foldl_evictions (now : Int) (todo : List (String × CacheItem V)) :
    ∀ acc : Cache V,
      (todo.foldl (sweepStep now) acc).stats.evictions =
        acc.stats.evictions + (todo.filter (fun kv => expiredAt now kv.2)).length := by
  induction todo with
  | nil => intro acc; simp
  | cons kv rest ih =>
    intro acc
    cases hE : expiredAt now kv.2 with
    | false => simp [List.foldl_cons, sweepStep, hE, ih]
    | true =>
      simp [List.foldl_cons, sweepStep, hE, ih]
      omega

/-- Item set of the sweep loop: the accumulator's entries whose keys are not
among the keys of the expired entries of the visited list. -/
theorem sweep_foldl_items (now : Int) (todo : List (String × CacheItem V)) :
    ∀ acc : Cache V,
      (todo.foldl (sweepStep now) acc).items =
        acc.items.filter
          (fun p =>
            !(((todo.filter (fun kv => expiredAt now kv.2)).map Prod.fst).contains p.1)) := by
  induction todo with
  | nil => intro acc; simp
  | cons kv rest ih =>
    intro acc
    cases hE : expiredAt now kv.2 with
    | false =>
      rw [List.foldl_cons]
      rw [show sweepStep now acc kv = acc by simp [sweepStep, hE]]
      rw [ih acc]
      simp [List.filter_cons, hE]
    | true =>
      rw [List.foldl_cons]
      rw [show sweepStep now acc kv =
            { acc with
              items := eraseKey acc.items kv.1
              stats := { acc.stats with evictions := acc.stats.evictions + 1 } } by
        simp [sweepStep, hE]]
      rw [ih]
      simp only [eraseKey, List.filter_filter, List.filter_cons, hE, List.map_cons,
        List.contains_cons]
      apply List.filter_congr
      intro p _
      cases hpk : p.1 == kv.1 <;>
        cases hc :
          ((rest.filter (fun kv => expiredAt now kv.2)).map Prod.fst).contains p.1 <;>
        simp only [hpk, hc, bne, if_true, List.map_cons, List.contains_cons,
          Bool.not_true, Bool.not_false, Bool.or_true, Bool.true_or,
          Bool.or_false, Bool.false_or, Bool.and_true, Bool.true_and,
          Bool.and_false, Bool.false_and]

/-- Entries of a nodup-keyed list are determined by their key. -/
theorem eq_of_keysNodup {items : List (String × CacheItem V)} (h : keysNodup items) :
    ∀ p ∈ items, ∀ q ∈ items, p.1 = q.1 → p = q := by
  induction items with
  | nil => intro p hp; simp at hp
  | cons a rest ih =>
    have hh : a.1 ∉ rest.map Prod.fst ∧ keysNodup rest := by
      simpa [keysNodup] using h
    intro p hp q hq hfst
    rcases List.mem_cons.mp hp with hpa | hpr <;>
      rcases List.mem_cons.mp hq with hqa | hqr
    · rw [hpa, hqa]
    · exfalso
      apply hh.1
      rw [hpa] at hfst
      rw [hfst]
      exact List.mem_map_of_mem Prod.fst hqr
    · exfalso
      apply hh.1
      rw [hqa] at hfst
      rw [← hfst]
      exact List.mem_map_of_mem Prod.fst hpr
    · exact ih hh.2 p hpr q hqr hfst

/-- Under nodup keys, filtering out the keys of the expired entries is the
same as filtering out the expired entries themselves. -/
theorem sweep_filter_keys_eq (items : List (String × CacheItem V)) (now : Int)
    (h : keysNodup items) :
    items.filter
        (fun p =>
          !(((items.filter (fun kv => expiredAt now kv.2)).map Prod.fst).contains p.1)) =
      items.filter (fun p => !(expiredAt now p.2)) := by
  apply List.filter_congr
  intro p hp
  have : ((items.filter (fun kv => expiredAt now kv.2)).map Prod.fst).contains p.1 =
      expiredAt now p.2 := by
    cases hE : expiredAt now p.2 with
    | true =>
      have hmem : p.1 ∈ (items.filter (fun kv => expiredAt now kv.2)).map Prod.fst :=
        List.mem_map_of_mem Prod.fst (List.mem_filter.mpr ⟨hp, hE⟩)
      simpa [List.elem_iff] using hmem
    | false =>
      rw [Bool.eq_false_iff]
      intro hcon
      have hmem : p.1 ∈ (items.filter (fun kv => expiredAt now kv.2)).map Prod.fst := by
        simpa [List.elem_iff] using hcon
      rcases List.mem_map.mp hmem with ⟨q, hq, hqk⟩
      have hq1 := List.mem_filter.mp hq
      have : q = p := eq_of_keysNodup h q hq1.1 p hp hqk
      rw [this] at hq1
      rw [hq1.2] at hE
      exact absurd hE (by simp)
  rw [this]

/-- C7: Cache.DeleteExpired removes exactly the entries with a positive
expiration strictly in the past, counts one eviction per removed entry, and
refreshes Size; an entry whose expiration is the no-expiry sentinel 0 is
never touched by the sweep.  A Set with a negative ttl stores that sentinel
(so the entry is sweep-proof), and a Set with ttl 0 behaves exactly like a
Set with the configured default duration. -/
theorem cache_deleteExpired_spec (c : Cache V) (now : Int) (h : keysNodup c.items) :
    (c.deleteExpired now).items = c.items.filter (fun p => !(expiredAt now p.2)) ∧
    (c.deleteExpired now).stats.evictions =
      c.stats.evictions + (c.items.filter (fun p => expiredAt now p.2)).length ∧
    (c.deleteExpired now).stats.size =
      (c.items.filter (fun p => !(expiredAt now p.2))).length ∧
    (∀ p ∈ c.items, p.2.expiration = 0 → p ∈ (c.deleteExpired now).items) ∧
    (∀ (key : String) (v : V) (d t : Int), d < 0 →
      lookupItem ((c.set key v d t).items) key = some ⟨v, 0⟩) ∧
    (∀ (key : String) (v : V) (t : Int),
      c.set key v 0 t = c.set key v c.defaultExpiration t) := by
  have hfold := sweep_foldl_items now c.items c
  have hkeys := sweep_filter_keys_eq c.items now h
  have hitems : (c.deleteExpired now).items =
      c.items.filter (fun p => !(expiredAt now p.2)) := by
    have hproj : (c.deleteExpired now).items =
        (c.items.foldl (sweepStep now) c).items := rfl
    rw [hproj, hfold, hkeys]
  refine ⟨hitems, ?_, ?_, ?_, ?_, ?_⟩
  · have hproj : (c.deleteExpired now).stats.evictions =
        (c.items.foldl (sweepStep now) c).stats.evictions := rfl
    rw [hproj, sweep_foldl_evictions]
  · have hproj : (c.deleteExpired now).stats.size =
        (c.items.foldl (sweepStep now) c).items.length := rfl
    rw [hproj, hfold, hkeys]
  · intro p hp hp0
    rw [hitems]
    refine List.mem_filter.mpr ⟨hp, ?_⟩
    simp [expiredAt, hp0]
  · intro key v d t hd
    have hexp : setExpiration c d t = 0 := by
      unfold setExpiration
      have h1 : ¬ d = 0 := by omega
      have h2 : ¬ d > 0 := by omega
      simp [h1, h2]
    simp [Cache.set, hexp, lookupItem_insertItem]
  · intro key v t
    unfold Cache.set setExpiration
    by_cases h0 : c.defaultExpiration = 0
    · simp [h0]
    · simp [h0]

/-- Cache with three entries (one sweep-proof entry with expiration 0), the
concrete input for the sweep witness. -/
def cacheW7 : Cache Nat :=
  { items := [("a", ⟨1, 5⟩), ("b", ⟨2, 0⟩), ("c", ⟨3, 20⟩)]
    defaultExpiration := 3600000000000
    maxItems := 10000
    stats := { hits := 0, misses := 0, evictions := 0, size := 3 } }

/-- Witness for cache_deleteExpired_spec at the concrete cache cacheW7 and
read time 10 (entry a expired, b sweep-proof, c still live). -/
theorem cache_deleteExpired_spec_witness :
    keysNodup cacheW7.items ∧
    ((cacheW7.deleteExpired 10).items =
        cacheW7.items.filter (fun p => !(expiredAt 10 p.2)) ∧
      (cacheW7.deleteExpired 10).stats.evictions =
        cacheW7.stats.evictions +
          (cacheW7.items.filter (fun p => expiredAt 10 p.2)).length ∧
      (cacheW7.deleteExpired 10).stats.size =
        (cacheW7.items.filter (fun p => !(expiredAt 10 p.2))).length ∧
      (∀ p ∈ cacheW7.items, p.2.expiration = 0 →
        p ∈ (cacheW7.deleteExpired 10).items) ∧
      (∀ (key : String) (v : Nat) (d t : Int), d < 0 →
        lookupItem ((cacheW7.set key v d t).items) key = some ⟨v, 0⟩) ∧
      (∀ (key : String) (v : Nat) (t : Int),
        cacheW7.set key v 0 t = cacheW7.set key v cacheW7.defaultExpiration t)) :=
  ⟨by show (cacheW7.items.map Prod.fst).Nodup; decide,
   cache_deleteExpired_spec cacheW7 10 (by show (cacheW7.items.map Prod.fst).Nodup; decide)⟩

/-- Lookup of a key after deleting that key yields nothing. -/
theorem lookupItem_eraseKey (items : List (String × CacheItem V)) (key : String) :
    lookupItem (eraseKey items key) key = none := by
  induction items with
  | nil => simp [eraseKey, lookupItem]
  | cons kv rest ih =>
    by_cases h : kv.1 = key
    · simpa [eraseKey, List.filter_cons, h] using ih
    · have hbne : (kv.1 != key) = true := by simpa using h
      have hbeq : (kv.1 == key) = false := by simpa using h
      simp only [eraseKey, List.filter_cons, hbne, if_true]
      simp only [lookupItem, List.find?_cons, hbeq]
      simpa [eraseKey, lookupItem] using ih

/-- Go map assignment leaves the binding of every other key unchanged. -/
theorem lookupItem_insertItem_ne (items : List (String × CacheItem V))
    (key key' : String) (item : CacheItem V) (hne : key' ≠ key) :
    lookupItem (insertItem items key item) key' = lookupItem items key' := by
  have hbeq : (key == key') = false := by
    simp only [beq_eq_false_iff_ne]
    exact fun hx => hne hx.symm
  induction items with
  | nil => simp [insertItem, lookupItem, List.find?_cons, hbeq]
  | cons kv rest ih =>
    by_cases h : kv.1 = key
    · have hbk : (kv.1 == key) = true := by simpa using h
      have hbk' : (kv.1 == key') = false := by
        simp only [beq_eq_false_iff_ne]
        rw [h]
        exact fun hx => hne hx.symm
      have hins : insertItem (kv :: rest) key item = (key, item) :: rest := by
        simp [insertItem, hbk]
      rw [hins]
      simp only [lookupItem, List.find?_cons, hbeq, hbk']
    · have hbk : (kv.1 == key) = false := by simpa using h
      have hins : insertItem (kv :: rest) key item = kv :: insertItem rest key item := by
        simp [insertItem, hbk]
      rw [hins]
      cases hbk' : kv.1 == key' with
      | true => simp only [lookupItem, List.find?_cons, hbk']
      | false =>
        simp only [lookupItem, List.find?_cons, hbk'] at ih ⊢
        exact ih

/-- Cache at capacity two whose soonest-to-expire entry has the empty-string
key, with a second key that is about to be overwritten. -/
def cacheC9 : Cache Nat :=
  { items := [("", ⟨0, 1⟩), ("a", ⟨1, 9⟩)]
    defaultExpiration := 3600000000000
    maxItems := 2
    stats := { hits := 0, misses := 0, evictions := 0, size := 2 } }

/-- C9 counterexample: cacheC9 holds exactly maxItems entries and the key
being Set is already present, yet no victim is evicted by the overwrite: the
eviction scan picks the minimal-expiration entry, whose key is the empty
string, and the sentinel guard of evictOldest then drops the eviction, so
both the eviction counter and the would-be victim survive unchanged. -/
theorem cache_set_overwrite_no_victim_cex :
    (lookupItem cacheC9.items "a").isSome ∧
    (cacheC9.items.length : Int) = cacheC9.maxItems ∧
    (cacheC9.set "a" 5 100 0).items.length = cacheC9.items.length ∧
    (cacheC9.set "a" 5 100 0).stats.evictions = cacheC9.stats.evictions ∧
    lookupItem (cacheC9.set "a" 5 100 0).items "" = some ⟨0, 1⟩ := by
  decide

/-- C9 amended: when the cache holds at least maxItems entries, Set runs the
eviction scan even for a key that is already present (the size check counts
the existing key), and as long as the scanned minimal-expiration entry does
not carry the empty-string key, exactly one victim is deleted before the
overwrite; the victim is the first minimal-expiration entry, which can be an
entry unrelated to the key being updated (its binding is gone afterwards). -/
theorem cache_set_overwrite_at_capacity (c : Cache V) (k : String) (v : V)
    (d t : Int) (hfull : (c.items.length : Int) = c.maxItems)
    (hk : (lookupItem c.items k).isSome)
    (hvict : (oldestScan c.items).1 ≠ "") :
    (c.set k v d t).stats.evictions = c.stats.evictions + 1 ∧
    (c.set k v d t).items =
      insertItem (eraseKey c.items (oldestScan c.items).1) k
        ⟨v, setExpiration c d t⟩ ∧
    ((oldestScan c.items).1 ≠ k →
      lookupItem ((c.set k v d t).items) (oldestScan c.items).1 = none) := by
  have hge : (c.items.length : Int) ≥ c.maxItems := le_of_eq hfull.symm
  have hbne : ((oldestScan c.items).1 != "") = true := by simpa using hvict
  have hevict : c.evictOldest =
      { c with
        items := eraseKey c.items (oldestScan c.items).1
        stats := { c.stats with evictions := c.stats.evictions + 1 } } := by
    unfold Cache.evictOldest
    simp [hbne]
  have hitems : (c.set k v d t).items =
      insertItem (eraseKey c.items (oldestScan c.items).1) k
        ⟨v, setExpiration c d t⟩ := by
    simp [Cache.set, hge, hevict]
  refine ⟨?_, hitems, ?_⟩
  · simp [Cache.set, hge, hevict]
  · intro hne
    rw [hitems, lookupItem_insertItem_ne _ _ _ _ hne, lookupItem_eraseKey]

/-- Cache at capacity two whose soonest-to-expire entry has an ordinary
nonempty key, for the overwrite-at-capacity witness. -/
def cacheW9 : Cache Nat :=
  { items := [("b", ⟨0, 1⟩), ("a", ⟨1, 9⟩)]
    defaultExpiration := 3600000000000
    maxItems := 2
    stats := { hits := 0, misses := 0, evictions := 0, size := 2 } }

/-- Witness for cache_set_overwrite_at_capacity: overwriting key a of the
full cache cacheW9 evicts the unrelated soonest-to-expire entry b. -/
theorem cache_set_overwrite_at_capacity_witness :
    (cacheW9.items.length : Int) = cacheW9.maxItems ∧
    (lookupItem cacheW9.items "a").isSome ∧
    (oldestScan cacheW9.items).1 ≠ "" ∧
    ((cacheW9.set "a" 5 100 0).stats.evictions = cacheW9.stats.evictions + 1 ∧
      (cacheW9.set "a" 5 100 0).items =
        insertItem (eraseKey cacheW9.items (oldestScan cacheW9.items).1) "a"
          ⟨5, setExpiration cacheW9 100 0⟩ ∧
      ((oldestScan cacheW9.items).1 ≠ "a" →
        lookupItem ((cacheW9.set "a" 5 100 0).items) (oldestScan cacheW9.items).1 =
          none)) :=
  ⟨by decide, by decide, by decide,
   cache_set_overwrite_at_capacity cacheW9 "a" 5 100 0 (by decide) (by decide)
     (by decide)⟩

/-- EventType from event.go is a string type; the constants below name the
closed set of categories. -/
abbrev EventType := String

/-- Event type constant nodeprop. -/
def EventTypeNodeProp : EventType := "nodeprop"

/-- Event type constant workflow. -/
def EventTypeWorkflow : EventType := "workflow"

/-- Event type constant secret. -/
def EventTypeSecret : EventType := "secret"

/-- Event type constant config. -/
def EventTypeConfig : EventType := "config"

/-- Event type constant error. -/
def EventTypeError : EventType := "error"

/-- Event type constant system. -/
def EventTypeSystem : EventType := "system"

/-- Event from event.go: ID, Type, Name, an opaque Data payload (embedded as
the type parameter D), optional Metadata and a Timestamp (0 is the zero
time, what time.Time.IsZero reports). -/
structure Event (D : Type) where
  id : String
  type : EventType
  name : String
  data : D
  metadata : List (String × D)
  timestamp : Int
deriving DecidableEq, Repr

/-- One registered subscription of the bus: the subscribers field of
EventBus is a map from event type to a map from subscription id to handler,
embedded as a flat association list keyed by (type, id).  A handler returns
an error option (EventHandler is func(Event) error). -/
structure BusEntry (D : Type) where
  eventType : EventType
  id : String
  handler : Event D → Option String

/-- EventBus from event.go: registered subscriptions, the ordered middleware
chain (AddMiddleware appends), and the position of the uuid fresh-name
supply used for subscription ids (uuid.New is embedded as an explicit
supply function consumed at this counter). -/
structure EventBus (D : Type) where
  subscribers : List (BusEntry D)
  middleware : List (Event D → Event D)
  subCtr : Nat

/-- EventSubscription from event.go: the handle Subscribe returns; its
unsubFn closure is embedded by the unsubscribe operation taking the stored
type and id. -/
structure EventSubscription (D : Type) where
  id : String
  eventType : EventType
  handler : Event D → Option String

/-- Bus with no subscribers and no middleware (NewEventBus). -/
def newEventBus (D : Type) : EventBus D :=
  { subscribers := [], middleware := [], subCtr := 0 }

/-- EventBus.Subscribe from event.go: the subscription id is the event type,
a dash, and a fresh uuid; the handler is registered under (type, id) and a
handle carrying them is returned. -/
def EventBus.subscribe (uuids : Nat → String) (eb : EventBus D) (t : EventType)
    (h : Event D → Option String) : EventSubscription D × EventBus D :=
  let id := t ++ "-" ++ uuids eb.subCtr
  (⟨id, t, h⟩,
   { eb with
     subscribers := eb.subscribers ++ [⟨t, id, h⟩]
     subCtr := eb.subCtr + 1 })

/-- EventBus.unsubscribe from event.go (reached through
EventSubscription.Unsubscribe): remove the entry with the given id from the
given type's handler map. -/
def EventBus.unsubscribe (eb : EventBus D) (t : EventType) (id : String) :
    EventBus D :=
  { eb with
    subscribers :=
      eb.subscribers.filter (fun s => !(s.eventType == t && s.id == id)) }

/-- Middleware chain application of Publish: each stage receives the
previous stage's output, first registered first. -/
def applyMiddleware (mws : List (Event D → Event D)) (e : Event D) : Event D :=
  mws.foldl (fun ev mw => mw ev) e

/-- Observable outcome of one Publish call: the event handed to the
consumer (none for the consumer-less first Publish variant), the consumer's
returned error (logged by Publish, which itself returns nothing), and the
handler invocations spawned by the fan-out, as pairs of subscription id and
the event passed to that handler. -/
structure PublishResult (D : Type) where
  consumed : Option (Event D)
  consumerError : Option String
  delivered : List (String × Event D)

/-- Updated Publish method of event.go (the consumer-bearing iteration):
apply the middleware chain in order, hand the result to the consumer (an
error is only logged), then fan out the same event to every subscription
registered for the event's type.  No timestamp defaulting happens here. -/
def EventBus.publish (consume : Event D → Option String) (eb : EventBus D)
    (e : Event D) : PublishResult D :=
  let e1 := applyMiddleware eb.middleware e
  { consumed := some e1
    consumerError := consume e1
    delivered :=
      (eb.subscribers.filter (fun s => s.eventType == e1.type)).map
        (fun s => (s.id, e1)) }

/-- First Publish variant of event.go (lines 101 to 128): default an unset
timestamp to the current time, apply the middleware chain, fan out; there is
no consumer in this variant. -/
def EventBus.publishV1 (eb : EventBus D) (e : Event D) (now : Int) :
    PublishResult D :=
  let e0 := if e.timestamp = 0 then { e with timestamp := now } else e
  let e1 := applyMiddleware eb.middleware e0
  { consumed := none
    consumerError := none
    delivered :=
      (eb.subscribers.filter (fun s => s.eventType == e1.type)).map
        (fun s => (s.id, e1)) }

/-- EventBus.AddMiddleware from event.go: append to the chain. -/
def EventBus.addMiddleware (eb : EventBus D) (mw : Event D → Event D) :
    EventBus D :=
  { eb with middleware := eb.middleware ++ [mw] }

/-- Middleware registered last is applied last, after the rest of the
chain. -/
theorem applyMiddleware_append (mws : List (Event D → Event D))
    (mw : Event D → Event D) (e : Event D) :
    applyMiddleware (mws ++ [mw]) e = mw (applyMiddleware mws e) := by
  simp [applyMiddleware, List.foldl_append]

/-- Consumer stub that always succeeds. -/
def consumeOk : Event Nat → Option String := fun _ => none

/-- Workflow event with an unset (zero) timestamp. -/
def eventC3 : Event Nat :=
  { id := "e1", type := EventTypeWorkflow, name := "WorkflowAdded", data := 0
    metadata := [], timestamp := 0 }

/-- C3 counterexample: the consumer-bearing (updated) Publish takes no clock
and performs no timestamp defaulting, so an event whose timestamp is unset
reaches the consumer with the timestamp still unset (0), where the claim
requires it to have been set to the current time first.  The defaulting step
exists only in the earlier consumer-less Publish variant. -/
theorem publish_consumer_unset_timestamp_cex :
    eventC3.timestamp = 0 ∧
    ((newEventBus Nat).publish consumeOk eventC3).consumed = some eventC3 ∧
    ((newEventBus Nat).publish consumeOk eventC3).consumed.map Event.timestamp =
      some 0 :=
  ⟨rfl, rfl, rfl⟩

/-- C3 amended: the updated Publish applies the middleware chain in
registration order (a stage appended by AddMiddleware runs last, on the
previous stages' output), hands exactly the middleware-processed event to
the consumer, and returns nothing: the consumer's error is only recorded
and the fan-out and consumed event are identical whatever the consumer
returns.  Timestamp defaulting does not happen here; it is performed by the
earlier consumer-less Publish variant, which stamps an unset timestamp with
the current time before delivery. -/
theorem publish_pipeline_spec (eb : EventBus D) (mw : Event D → Event D)
    (consume consume2 : Event D → Option String) (e : Event D) (now : Int) :
    ((eb.addMiddleware mw).publish consume e).consumed =
      some (mw (applyMiddleware eb.middleware e)) ∧
    (eb.publish consume e).consumed = some (applyMiddleware eb.middleware e) ∧
    (eb.publish consume e).consumerError =
      consume (applyMiddleware eb.middleware e) ∧
    (eb.publish consume e).delivered = (eb.publish consume2 e).delivered ∧
    (eb.publish consume e).consumed = (eb.publish consume2 e).consumed ∧
    (e.timestamp = 0 → eb.middleware = [] →
      ∀ p ∈ (eb.publishV1 e now).delivered, p.2.timestamp = now) := by
  refine ⟨?_, rfl, rfl, rfl, rfl, ?_⟩
  · simp [EventBus.publish, EventBus.addMiddleware, applyMiddleware_append]
  · intro h0 hmw p hp
    simp only [EventBus.publishV1, h0, if_true, hmw, applyMiddleware,
      List.foldl_nil] at hp
    rcases List.mem_map.mp hp with ⟨s, _, hps⟩
    rw [← hps]

/-- Middleware overwriting the event name, for the pipeline witness. -/
def mwRename : Event Nat → Event Nat := fun ev => { ev with name := "renamed" }

/-- Consumer stub that always fails. -/
def consumeFail : Event Nat → Option String := fun _ => some "boom"

/-- Witness for publish_pipeline_spec at a concrete bus and event. -/
theorem publish_pipeline_spec_witness :
    (((newEventBus Nat).addMiddleware mwRename).publish consumeFail eventC3).consumed =
      some (mwRename (applyMiddleware (newEventBus Nat).middleware eventC3)) ∧
    ((newEventBus Nat).publish consumeFail eventC3).consumed =
      some (applyMiddleware (newEventBus Nat).middleware eventC3) ∧
    ((newEventBus Nat).publish consumeFail eventC3).consumerError =
      consumeFail (applyMiddleware (newEventBus Nat).middleware eventC3) ∧
    ((newEventBus Nat).publish consumeFail eventC3).delivered =
      ((newEventBus Nat).publish consumeOk eventC3).delivered ∧
    ((newEventBus Nat).publish consumeFail eventC3).consumed =
      ((newEventBus Nat).publish consumeOk eventC3).consumed ∧
    (eventC3.timestamp = 0 → (newEventBus Nat).middleware = [] →
      ∀ p ∈ ((newEventBus Nat).publishV1 eventC3 42).delivered,
        p.2.timestamp = 42) :=
  publish_pipeline_spec (newEventBus Nat) mwRename consumeFail consumeOk eventC3 42

/-- Subscription id built by Subscribe: event type, a dash, and the uuid
drawn at the given supply position. -/
def subId (uuids : Nat → String) (t : EventType) (n : Nat) : String :=
  t ++ "-" ++ uuids n

/-- Bus obtained by two consecutive Subscribe calls for the same type. -/
def busAfterTwo (uuids : Nat → String) (eb : EventBus D) (t : EventType)
    (h1 h2 : Event D → Option String) : EventBus D :=
  ((eb.subscribe uuids t h1).2.subscribe uuids t h2).2

/-- Fan-out deliveries carry no pair with an id held by no subscriber of the
bus. -/
theorem fanout_filter_of_fresh (l : List (BusEntry D)) (e : Event D)
    (id : String) (h : ∀ s ∈ l, s.id ≠ id) :
    ((l.filter (fun s => s.eventType == e.type)).map (fun s => (s.id, e))).filter
      (fun p => p.1 == id) = [] := by
  induction l with
  | nil => rfl
  | cons s rest ih =>
    have hs : s.id ≠ id := h s (List.mem_cons_self s rest)
    have hrest : ∀ x ∈ rest, x.id ≠ id := fun x hx => h x (List.mem_cons_of_mem s hx)
    have hbeq : (s.id == id) = false := by simpa using hs
    cases hty : s.eventType == e.type with
    | true => simp [List.filter_cons, hty, hbeq, ih hrest]
    | false => simp [List.filter_cons, hty, ih hrest]

/-- C5: with two handlers subscribed to the same event type (their ids drawn
fresh from the uuid supply), one Publish of an event of that type delivers
to each of the two subscriptions exactly one invocation, carrying the
published event itself (matching type, name and data; the bus has no
middleware).  After unsubscribing the first subscription, a Publish delivers
nothing to it while still delivering exactly one invocation to the other;
and each Subscribe call returns an independent fresh handle, appending
exactly one new entry to the subscriber list. -/
theorem eventbus_fanout_unsubscribe_spec (uuids : Nat → String)
    (eb : EventBus D) (t : EventType) (h1 h2 : Event D → Option String)
    (consume : Event D → Option String) (e : Event D)
    (hty : e.type = t) (hmw : eb.middleware = [])
    (hfresh1 : ∀ s ∈ eb.subscribers, s.id ≠ subId uuids t eb.subCtr)
    (hfresh2 : ∀ s ∈ eb.subscribers, s.id ≠ subId uuids t (eb.subCtr + 1))
    (hne : subId uuids t eb.subCtr ≠ subId uuids t (eb.subCtr + 1)) :
    ((eb.subscribe uuids t h1).1.id = subId uuids t eb.subCtr ∧
     ((eb.subscribe uuids t h1).2.subscribe uuids t h2).1.id =
       subId uuids t (eb.subCtr + 1) ∧
     (eb.subscribe uuids t h1).2.subscribers =
       eb.subscribers ++ [⟨t, subId uuids t eb.subCtr, h1⟩]) ∧
    ((busAfterTwo uuids eb t h1 h2).publish consume e).delivered.filter
        (fun p => p.1 == subId uuids t eb.subCtr) =
      [(subId uuids t eb.subCtr, e)] ∧
    ((busAfterTwo uuids eb t h1 h2).publish consume e).delivered.filter
        (fun p => p.1 == subId uuids t (eb.subCtr + 1)) =
      [(subId uuids t (eb.subCtr + 1), e)] ∧
    (∀ p ∈ (((busAfterTwo uuids eb t h1 h2).unsubscribe t
          (subId uuids t eb.subCtr)).publish consume e).delivered,
      p.1 ≠ subId uuids t eb.subCtr) ∧
    (((busAfterTwo uuids eb t h1 h2).unsubscribe t
          (subId uuids t eb.subCtr)).publish consume e).delivered.filter
        (fun p => p.1 == subId uuids t (eb.subCtr + 1)) =
      [(subId uuids t (eb.subCtr + 1), e)] := by
  have hid1 : subId uuids t eb.subCtr = t ++ "-" ++ uuids eb.subCtr := rfl
  have hsubs : (busAfterTwo uuids eb t h1 h2).subscribers =
      eb.subscribers ++
        [⟨t, subId uuids t eb.subCtr, h1⟩, ⟨t, subId uuids t (eb.subCtr + 1), h2⟩] := by
    simp [busAfterTwo, EventBus.subscribe, subId]
  have hmw2 : (busAfterTwo uuids eb t h1 h2).middleware = eb.middleware := rfl
  have happ : applyMiddleware (busAfterTwo uuids eb t h1 h2).middleware e = e := by
    rw [hmw2, hmw]
    rfl
  have htyb : (t == e.type) = true := by simp [hty]
  have hbeq11 : (subId uuids t eb.subCtr == subId uuids t eb.subCtr) = true := by simp
  have hbeq22 : (subId uuids t (eb.subCtr + 1) == subId uuids t (eb.subCtr + 1)) = true := by
    simp
  have hbeq21 : (subId uuids t (eb.subCtr + 1) == subId uuids t eb.subCtr) = false := by
    simp only [beq_eq_false_iff_ne]
    exact fun hx => hne hx.symm
  have hbeq12 : (subId uuids t eb.subCtr == subId uuids t (eb.subCtr + 1)) = false := by
    simp only [beq_eq_false_iff_ne]
    exact hne
  have hdeliv : ((busAfterTwo uuids eb t h1 h2).publish consume e).delivered =
      ((eb.subscribers ++
          ([⟨t, subId uuids t eb.subCtr, h1⟩,
            ⟨t, subId uuids t (eb.subCtr + 1), h2⟩] : List (BusEntry D))).filter
        (fun s => s.eventType == e.type)).map (fun s => (s.id, e)) := by
    simp only [EventBus.publish, happ, hsubs]
  refine ⟨⟨rfl, rfl, rfl⟩, ?_, ?_, ?_, ?_⟩
  · rw [hdeliv]
    simp only [List.filter_append, List.map_append]
    rw [fanout_filter_of_fresh eb.subscribers e _ hfresh1]
    simp [List.filter_cons, htyb, hbeq11, hbeq21]
  · rw [hdeliv]
    simp only [List.filter_append, List.map_append]
    rw [fanout_filter_of_fresh eb.subscribers e _ hfresh2]
    simp [List.filter_cons, htyb, hbeq22, hbeq12]
  · have hsubsU : ((busAfterTwo uuids eb t h1 h2).unsubscribe t
        (subId uuids t eb.subCtr)).subscribers =
        eb.subscribers.filter
            (fun s => !(s.eventType == t && s.id == subId uuids t eb.subCtr)) ++
          [⟨t, subId uuids t (eb.subCtr + 1), h2⟩] := by
      simp only [EventBus.unsubscribe, hsubs, List.filter_append]
      simp [List.filter_cons, hbeq11, hbeq21]
    intro p hp
    have hfreshU : ∀ s ∈ ((busAfterTwo uuids eb t h1 h2).unsubscribe t
        (subId uuids t eb.subCtr)).subscribers, s.id ≠ subId uuids t eb.subCtr := by
      rw [hsubsU]
      intro s hs
      rcases List.mem_append.mp hs with hsl | hsr
      · exact hfresh1 s (List.mem_filter.mp hsl).1
      · have : s = ⟨t, subId uuids t (eb.subCtr + 1), h2⟩ := by simpa using hsr
        rw [this]
        exact fun hx => hne hx.symm
    simp only [EventBus.publish] at hp
    rcases List.mem_map.mp hp with ⟨s, hs, hps⟩
    have hsmem := (List.mem_filter.mp hs).1
    rw [← hps]
    exact hfreshU s hsmem
  · have hsubsU : ((busAfterTwo uuids eb t h1 h2).unsubscribe t
        (subId uuids t eb.subCtr)).subscribers =
        eb.subscribers.filter
            (fun s => !(s.eventType == t && s.id == subId uuids t eb.subCtr)) ++
          [⟨t, subId uuids t (eb.subCtr + 1), h2⟩] := by
      simp only [EventBus.unsubscribe, hsubs, List.filter_append]
      simp [List.filter_cons, hbeq11, hbeq21]
    have happU : applyMiddleware ((busAfterTwo uuids eb t h1 h2).unsubscribe t
        (subId uuids t eb.subCtr)).middleware e = e := happ
    have hfreshU2 : ∀ s ∈ eb.subscribers.filter
        (fun s => !(s.eventType == t && s.id == subId uuids t eb.subCtr)),
        s.id ≠ subId uuids t (eb.subCtr + 1) :=
      fun s hs => hfresh2 s (List.mem_filter.mp hs).1
    simp only [EventBus.publish, happU, hsubsU]
    simp only [List.filter_append, List.map_append]
    rw [fanout_filter_of_fresh _ e _ hfreshU2]
    simp [List.filter_cons, htyb, hbeq22]

/-- Concrete uuid supply for the fan-out witness. -/
def uuidsW : Nat → String := fun n => if n = 0 then "u0" else "u1"

/-- Workflow event for the fan-out witness. -/
def eventC5 : Event Nat :=
  { id := "e5", type := EventTypeWorkflow, name := "W", data := 3
    metadata := [], timestamp := 1 }

/-- Witness for eventbus_fanout_unsubscribe_spec: two fresh subscriptions on
an empty bus, one publish, then an unsubscribe and a second publish. -/
theorem eventbus_fanout_unsubscribe_spec_witness :
    eventC5.type = "workflow" ∧
    (newEventBus Nat).middleware = [] ∧
    subId uuidsW "workflow" 0 ≠ subId uuidsW "workflow" 1 ∧
    ((((newEventBus Nat).subscribe uuidsW "workflow" consumeOk).1.id =
        subId uuidsW "workflow" 0 ∧
      (((newEventBus Nat).subscribe uuidsW "workflow" consumeOk).2.subscribe
          uuidsW "workflow" consumeOk).1.id = subId uuidsW "workflow" 1 ∧
      ((newEventBus Nat).subscribe uuidsW "workflow" consumeOk).2.subscribers =
        (newEventBus Nat).subscribers ++
          ([⟨"workflow", subId uuidsW "workflow" 0, consumeOk⟩] :
            List (BusEntry Nat))) ∧
     ((busAfterTwo uuidsW (newEventBus Nat) "workflow" consumeOk
          consumeOk).publish consumeOk eventC5).delivered.filter
        (fun p => p.1 == subId uuidsW "workflow" 0) =
      [(subId uuidsW "workflow" 0, eventC5)] ∧
     ((busAfterTwo uuidsW (newEventBus Nat) "workflow" consumeOk
          consumeOk).publish consumeOk eventC5).delivered.filter
        (fun p => p.1 == subId uuidsW "workflow" 1) =
      [(subId uuidsW "workflow" 1, eventC5)] ∧
     (∀ p ∈ (((busAfterTwo uuidsW (newEventBus Nat) "workflow" consumeOk
            consumeOk).unsubscribe "workflow"
          (subId uuidsW "workflow" 0)).publish consumeOk eventC5).delivered,
       p.1 ≠ subId uuidsW "workflow" 0) ∧
     (((busAfterTwo uuidsW (newEventBus Nat) "workflow" consumeOk
            consumeOk).unsubscribe "workflow"
          (subId uuidsW "workflow" 0)).publish consumeOk eventC5).delivered.filter
        (fun p => p.1 == subId uuidsW "workflow" 1) =
      [(subId uuidsW "workflow" 1, eventC5)]) :=
  ⟨rfl, rfl, by decide,
   eventbus_fanout_unsubscribe_spec uuidsW (newEventBus Nat) "workflow"
     consumeOk consumeOk consumeOk eventC5 rfl rfl
     (by intro s hs; simp [newEventBus] at hs)
     (by intro s hs; simp [newEventBus] at hs)
     (by decide)⟩

/-- PRInfo from types.go (Open and Closed pull request counts). -/
structure PRInfo where
  openPRs : Int := 0
  closedPRs : Int := 0
deriving DecidableEq, Repr

/-- GitHub repository metadata from types.go. -/
structure GitHub where
  stars : Int := 0
  forks : Int := 0
  issues : Int := 0
  pullRequests : PRInfo := {}
  latestCommit : String := ""
  license : String := ""
  topics : List String := []
deriving DecidableEq, Repr

/-- DockerfileInfo from types.go. -/
structure DockerfileInfo where
  exposedPorts : List String := []
  envVars : List String := []
  cmd : String := ""
  entrypoint : String := ""
  volumes : List String := []
deriving DecidableEq, Repr

/-- Service from types.go (docker-compose service). -/
structure Service where
  name : String := ""
  ports : List String := []
  envVars : List String := []
  volumes : List String := []
deriving DecidableEq, Repr

/-- DockerCompose from types.go; the Go map-valued fields are embedded as
association lists. -/
structure DockerCompose where
  services : List Service := []
  ports : List (String × List Int) := []
  volumes : List (String × List String) := []
  envVars : List (String × List String) := []
  command : List (String × String) := []
deriving DecidableEq, Repr

/-- Docker metadata from types.go. -/
structure Docker where
  dockerfile : DockerfileInfo := {}
  dockerCompose : DockerCompose := {}
deriving DecidableEq, Repr

/-- Metadata section of the descriptor file from types.go; omitted fields of
a Go struct literal take their zero value, mirrored by the defaults. -/
structure Metadata where
  description : String := ""
  owner : String := ""
  lastUpdated : String := ""
  tags : List String := []
  github : GitHub := {}
  docker : Docker := {}
deriving DecidableEq, Repr

/-- CustomProperties section of the descriptor file from types.go. -/
structure CustomProperties where
  deployEnvironment : String := ""
  monitoringEnabled : Bool := false
  autoScale : Bool := false
  service : String := ""
  app : String := ""
  image : String := ""
  ports : List String := []
  volumes : List String := []
  network : String := ""
  domain : String := ""
deriving DecidableEq, Repr

/-- NodePropFile from types.go, the descriptor record written to
.nodeprop.yml. -/
structure NodePropFile where
  id : String := ""
  name : String := ""
  address : String := ""
  capabilities : List String := []
  status : String := ""
  metadata : Metadata := {}
  customProperties : CustomProperties := {}
deriving DecidableEq, Repr

/-- Workflow result structure from interfaces.go. -/
structure Workflow where
  id : String := ""
  name : String := ""
  path : String := ""
  content : String := ""
  created : Int := 0
  updated : Int := 0
  status : String := ""
deriving DecidableEq, Repr

/-- Secret result structure from interfaces.go. -/
structure Secret where
  name : String := ""
  created : Int := 0
  updated : Int := 0
  visibility : String := ""
deriving DecidableEq, Repr

/-- SecretReference stored locally by AddSecret in manager.go. -/
structure SecretReference where
  name : String := ""
  repository : String := ""
  created : Int := 0
  updated : Int := 0
  visibility : String := ""
deriving DecidableEq, Repr

/-- WorkflowArguments from interfaces.go; Variables is embedded as a string
association list. -/
structure WorkflowArguments where
  repository : String := ""
  name : String := ""
  content : String := ""
  template : String := ""
  vars : List (String × String) := []
  reference : String := ""
deriving DecidableEq, Repr

/-- SecretArguments from interfaces.go. -/
structure SecretArguments where
  repository : String := ""
  name : String := ""
  value : String := ""
  visibility : String := ""
deriving DecidableEq, Repr

/-- NodePropArguments from interfaces.go. -/
structure NodePropArguments where
  repoPath : String := ""
  repoName : String := ""
  domain : String := ""
  config : String := ""
  vars : List (String × String) := []
deriving DecidableEq, Repr

/-- Interface-typed event payloads used by the manager's events and stores
(Workflow, Secret, SecretReference or NodePropFile values, or nothing). -/
inductive MgrData where
  | workflowData (w : Workflow)
  | secretData (s : Secret)
  | secretRefData (r : SecretReference)
  | nodePropData (f : NodePropFile)
  | noData
deriving DecidableEq, Repr

/-- Event structure of interfaces.go (the shape the manager emits): Type,
Name, Data, optional Error, Timestamp and Metadata. -/
structure MgrEvent where
  type : EventType
  name : String
  data : MgrData
  error : Option String := none
  timestamp : Int := 0
  metadata : List (String × MgrData) := []
deriving DecidableEq, Repr

/-- Record of one call made to the GitHub collaborator. -/
inductive GitHubCall where
  | createWorkflow (repo name content : String)
  | createSecret (repo name value visibility : String)
  | createFile (repoPath fileName content : String)
deriving DecidableEq, Repr

/-- Injected collaborators of the manager, embedded as result oracles: the
validator methods (declared in the repository only as an interface and
through calls), the template processor, yaml marshalling, the GitHub client
methods (an error option or Except result per call), the store, the uuid
fresh-name supply standing in for uuid.New, and the RFC3339 clock
formatter standing in for time formatting. -/
structure Collaborators where
  validateWorkflowArgs : WorkflowArguments → Option String
  validateSecretArgs : SecretArguments → Option String
  validateNodePropArgs : NodePropArguments → Option String
  validateNodeProp : NodePropFile → Option String
  processTemplate : String → List (String × String) → Except String String
  yamlMarshal : NodePropFile → Except String String
  createWorkflowRes : String → String → String → Option String
  createSecretRes : String → String → String → String → Option String
  createFileRes : String → String → String → Option String
  storeSetRes : String → Option String
  uuids : Nat → String
  formatTime : Int → String

/-- Observable manager state threaded through the operations: the cache,
the events emitted so far (Emit appends), the collaborator calls made, the
store writes, and the position of the uuid supply. -/
structure ManagerState where
  cache : Cache MgrData
  events : List MgrEvent
  githubCalls : List GitHubCall
  storeCalls : List (String × MgrData)
  uuidCtr : Nat
deriving DecidableEq, Repr

/-- Fresh manager state. -/
def initState : ManagerState :=
  { cache := newCache MgrData, events := [], githubCalls := [], storeCalls := []
    uuidCtr := 0 }

/-- One hour in nanoseconds, the ttl the manager uses for cache writes. -/
def oneHour : Int := 3600000000000

/-- NodePropManager.AddWorkflow from manager.go: validate, optionally expand
the template, call the GitHub client (recording the call), and on success
invalidate the workflows cache entry and emit a WorkflowAdded event whose
data is a Workflow with Name, Content, Updated and an active Status.  Every
error is returned wrapped with its operation context. -/
def addWorkflow (co : Collaborators) (s : ManagerState) (args : WorkflowArguments)
    (now : Int) : Except String Unit × ManagerState :=
  match co.validateWorkflowArgs args with
  | some err => (.error ("invalid workflow arguments: " ++ err), s)
  | none =>
    let contentE : Except String String :=
      if args.template != "" then
        match co.processTemplate args.template args.vars with
        | .error err => .error ("failed to process template: " ++ err)
        | .ok processed => .ok processed
      else .ok args.content
    match contentE with
    | .error msg => (.error msg, s)
    | .ok content =>
      let s1 := { s with githubCalls :=
        s.githubCalls ++ [.createWorkflow args.repository args.name content] }
      match co.createWorkflowRes args.repository args.name content with
      | some err => (.error ("failed to create workflow: " ++ err), s1)
      | none =>
        let s2 := { s1 with
          cache := s1.cache.delete ("workflows:" ++ args.repository) }
        let ev : MgrEvent :=
          { type := EventTypeWorkflow, name := "WorkflowAdded"
            data := .workflowData
              { name := args.name, content := content, updated := now
                status := "active" } }
        (.ok (), { s2 with events := s2.events ++ [ev] })

/-- NodePropManager.AddSecret from manager.go: validate, call the GitHub
client, and on success invalidate the secrets cache entry, store a
SecretReference locally (a store failure is only logged, so the result
oracle is not consulted for control flow) and emit a SecretAdded event. -/
def addSecret (co : Collaborators) (s : ManagerState) (args : SecretArguments)
    (now : Int) : Except String Unit × ManagerState :=
  match co.validateSecretArgs args with
  | some err => (.error ("invalid secret arguments: " ++ err), s)
  | none =>
    let s1 := { s with githubCalls :=
      s.githubCalls ++
        [.createSecret args.repository args.name args.value args.visibility] }
    match co.createSecretRes args.repository args.name args.value args.visibility with
    | some err => (.error ("failed to create secret: " ++ err), s1)
    | none =>
      let s2 := { s1 with
        cache := s1.cache.delete ("secrets:" ++ args.repository) }
      let ref : SecretReference :=
        { name := args.name, repository := args.repository, created := now
          updated := now, visibility := args.visibility }
      let s3 := { s2 with storeCalls :=
        s2.storeCalls ++
          [("secret_refs:" ++ args.repository ++ ":" ++ args.name,
            MgrData.secretRefData ref)] }
      let ev : MgrEvent :=
        { type := EventTypeSecret, name := "SecretAdded"
          data := .secretData
            { name := args.name, created := now, updated := now
              visibility := args.visibility } }
      (.ok (), { s3 with events := s3.events ++ [ev] })

/-- Descriptor literal built by NodePropManager.GenerateNodeProp: a fresh
NodePropFile whose ID is the fresh uuid, Name the RepoName, Address the
derived repository URL, Status active, Metadata only LastUpdated and Owner,
and CustomProperties only the Domain; everything else is the zero value
(the literal mentions no prior file). -/
def mkNodePropFile (id : String) (args : NodePropArguments) (nowStr : String) :
    NodePropFile :=
  { id := id
    name := args.repoName
    address := "https://github.com/Cdaprod/" ++ args.repoName
    status := "active"
    metadata := { lastUpdated := nowStr, owner := "Cdaprod" }
    customProperties := { domain := args.domain } }

/-- NodePropManager.GenerateNodeProp from manager.go: validate the
arguments, build the fresh descriptor (consuming one uuid), validate it,
marshal it, write it via the GitHub client (recording the call), and on
success cache it for one hour and emit a NodePropGenerated event carrying
it. -/
def generateNodeProp (co : Collaborators) (s : ManagerState)
    (args : NodePropArguments) (now : Int) : Except String Unit × ManagerState :=
  match co.validateNodePropArgs args with
  | some err => (.error ("invalid nodeprop arguments: " ++ err), s)
  | none =>
    let nodeProp := mkNodePropFile (co.uuids s.uuidCtr) args (co.formatTime now)
    let s1 := { s with uuidCtr := s.uuidCtr + 1 }
    match co.validateNodeProp nodeProp with
    | some err => (.error ("invalid nodeprop configuration: " ++ err), s1)
    | none =>
      match co.yamlMarshal nodeProp with
      | .error err => (.error ("failed to marshal nodeprop: " ++ err), s1)
      | .ok data =>
        let s2 := { s1 with githubCalls :=
          s1.githubCalls ++ [.createFile args.repoPath ".nodeprop.yml" data] }
        match co.createFileRes args.repoPath ".nodeprop.yml" data with
        | some err => (.error ("failed to create nodeprop file: " ++ err), s2)
        | none =>
          let cache3 :=
            Cache.set s2.cache ("nodeprop:" ++ args.repoPath)
              (MgrData.nodePropData nodeProp) oneHour now
          let s3 := { s2 with cache := cache3 }
          let ev : MgrEvent :=
            { type := EventTypeNodeProp, name := "NodePropGenerated"
              data := .nodePropData nodeProp }
          (.ok (), { s3 with events := s3.events ++ [ev] })

/-- C6: when argument validation fails, each manager operation returns the
wrapped validation error immediately and the state is returned unchanged:
no collaborator call is recorded, the cache is untouched and no event is
emitted (result state equals the input state). -/
theorem manager_validation_no_side_effects (co : Collaborators)
    (s : ManagerState) (wargs : WorkflowArguments) (sargs : SecretArguments)
    (nargs : NodePropArguments) (now : Int) (errW errS errN : String) :
    (co.validateWorkflowArgs wargs = some errW →
      addWorkflow co s wargs now =
        (.error ("invalid workflow arguments: " ++ errW), s)) ∧
    (co.validateSecretArgs sargs = some errS →
      addSecret co s sargs now =
        (.error ("invalid secret arguments: " ++ errS), s)) ∧
    (co.validateNodePropArgs nargs = some errN →
      generateNodeProp co s nargs now =
        (.error ("invalid nodeprop arguments: " ++ errN), s)) := by
  refine ⟨?_, ?_, ?_⟩
  · intro h
    simp [addWorkflow, h]
  · intro h
    simp [addSecret, h]
  · intro h
    simp [generateNodeProp, h]

/-- Collaborator stub whose validators reject an empty repository (or repo
name) and whose external calls all succeed. -/
def coReject : Collaborators :=
  { validateWorkflowArgs := fun a =>
      if a.repository = "" then some "invalid repository name" else none
    validateSecretArgs := fun a =>
      if a.repository = "" then some "invalid repository name" else none
    validateNodePropArgs := fun a =>
      if a.repoName = "" then some "invalid repository name" else none
    validateNodeProp := fun _ => none
    processTemplate := fun _ _ => .ok ""
    yamlMarshal := fun f => .ok f.name
    createWorkflowRes := fun _ _ _ => none
    createSecretRes := fun _ _ _ _ => none
    createFileRes := fun _ _ _ => none
    storeSetRes := fun _ => none
    uuids := uuidsW
    formatTime := fun _ => "2026-01-01T00:00:00Z" }

/-- Workflow arguments with an empty repository. -/
def wargsEmpty : WorkflowArguments :=
  { repository := "", name := "ci", content := "name: CI" }

/-- Secret arguments with an empty repository. -/
def sargsEmpty : SecretArguments :=
  { repository := "", name := "TEST_SECRET", value := "v", visibility := "private" }

/-- NodeProp arguments with an empty repository name. -/
def nargsEmpty : NodePropArguments :=
  { repoPath := "p", repoName := "", domain := "example.com" }

/-- Witness for manager_validation_no_side_effects: empty repository
arguments are rejected by the injected validator and each operation returns
the fresh state untouched. -/
theorem manager_validation_no_side_effects_witness :
    addWorkflow coReject initState wargsEmpty 0 =
      (.error "invalid workflow arguments: invalid repository name", initState) ∧
    addSecret coReject initState sargsEmpty 0 =
      (.error "invalid secret arguments: invalid repository name", initState) ∧
    generateNodeProp coReject initState nargsEmpty 0 =
      (.error "invalid nodeprop arguments: invalid repository name", initState) :=
  ⟨(manager_validation_no_side_effects coReject initState wargsEmpty sargsEmpty
      nargsEmpty 0 "invalid repository name" "invalid repository name"
      "invalid repository name").1 (by rfl),
   (manager_validation_no_side_effects coReject initState wargsEmpty sargsEmpty
      nargsEmpty 0 "invalid repository name" "invalid repository name"
      "invalid repository name").2.1 (by rfl),
   (manager_validation_no_side_effects coReject initState wargsEmpty sargsEmpty
      nargsEmpty 0 "invalid repository name" "invalid repository name"
      "invalid repository name").2.2 (by rfl)⟩

/-- Collaborator stub whose validators accept everything and whose GitHub
calls all fail with the error github error. -/
def coFailGitHub : Collaborators :=
  { validateWorkflowArgs := fun _ => none
    validateSecretArgs := fun _ => none
    validateNodePropArgs := fun _ => none
    validateNodeProp := fun _ => none
    processTemplate := fun _ _ => .ok ""
    yamlMarshal := fun f => .ok f.name
    createWorkflowRes := fun _ _ _ => some "github error"
    createSecretRes := fun _ _ _ _ => some "github error"
    createFileRes := fun _ _ _ => some "github error"
    storeSetRes := fun _ => none
    uuids := uuidsW
    formatTime := fun _ => "2026-01-01T00:00:00Z" }

/-- Valid workflow arguments used against the failing collaborator. -/
def wargsOk : WorkflowArguments :=
  { repository := "owner/repo", name := "ci", content := "name: CI" }

/-- C2 counterexample: with a collaborator whose CreateWorkflow call fails,
AddWorkflow returns the error wrapped with its operation context, but the
emitted event list stays empty: no error event reaches the bus, against the
claim that an error event is additionally emitted on collaborator failure.
Only the attempted collaborator call is recorded. -/
theorem manager_collaborator_failure_no_event_cex :
    (addWorkflow coFailGitHub initState wargsOk 0).1 =
      .error "failed to create workflow: github error" ∧
    (addWorkflow coFailGitHub initState wargsOk 0).2.events = [] ∧
    (addWorkflow coFailGitHub initState wargsOk 0).2.githubCalls =
      [.createWorkflow "owner/repo" "ci" "name: CI"] ∧
    (addWorkflow coFailGitHub initState wargsOk 0).2.cache = initState.cache :=
  ⟨rfl, rfl, rfl, rfl⟩

/-- C2 amended: when the external collaborator call fails, each manager
operation returns the error wrapped with its operation context, and the only
state change is the recorded collaborator call (GenerateNodeProp also
consumes one uuid building the descriptor before the call): in particular no
event of any kind is emitted and the cache is untouched.  Error events are
not published on these paths. -/
theorem manager_collaborator_failure_spec (co : Collaborators)
    (s : ManagerState) (wargs : WorkflowArguments) (sargs : SecretArguments)
    (nargs : NodePropArguments) (now : Int) (errW errS errN : String) :
    (co.validateWorkflowArgs wargs = none → wargs.template = "" →
      co.createWorkflowRes wargs.repository wargs.name wargs.content = some errW →
      addWorkflow co s wargs now =
        (.error ("failed to create workflow: " ++ errW),
         { s with githubCalls := s.githubCalls ++
            [.createWorkflow wargs.repository wargs.name wargs.content] })) ∧
    (co.validateSecretArgs sargs = none →
      co.createSecretRes sargs.repository sargs.name sargs.value
          sargs.visibility = some errS →
      addSecret co s sargs now =
        (.error ("failed to create secret: " ++ errS),
         { s with githubCalls := s.githubCalls ++
            [.createSecret sargs.repository sargs.name sargs.value
              sargs.visibility] })) ∧
    (∀ data : String, co.validateNodePropArgs nargs = none →
      co.validateNodeProp
          (mkNodePropFile (co.uuids s.uuidCtr) nargs (co.formatTime now)) = none →
      co.yamlMarshal
          (mkNodePropFile (co.uuids s.uuidCtr) nargs (co.formatTime now)) =
        .ok data →
      co.createFileRes nargs.repoPath ".nodeprop.yml" data = some errN →
      generateNodeProp co s nargs now =
        (.error ("failed to create nodeprop file: " ++ errN),
         { s with
           uuidCtr := s.uuidCtr + 1
           githubCalls := s.githubCalls ++
            [.createFile nargs.repoPath ".nodeprop.yml" data] })) := by
  refine ⟨?_, ?_, ?_⟩
  · intro hv ht hg
    have htb : (wargs.template != "") = false := by simp [ht]
    simp [addWorkflow, hv, htb, hg]
  · intro hv hg
    simp [addSecret, hv, hg]
  · intro data hv hvn hm hg
    simp [generateNodeProp, hv, hvn, hm, hg]

/-- Valid secret arguments used against the failing collaborator. -/
def sargsOk : SecretArguments :=
  { repository := "owner/repo", name := "TEST_SECRET", value := "secret-value"
    visibility := "private" }

/-- Valid nodeprop arguments used against the failing collaborator. -/
def nargsOk : NodePropArguments :=
  { repoPath := "p1", repoName := "svc", domain := "example.com" }

/-- Witness for manager_collaborator_failure_spec against the failing
collaborator stub. -/
theorem manager_collaborator_failure_spec_witness :
    addWorkflow coFailGitHub initState wargsOk 0 =
      (.error "failed to create workflow: github error",
       { initState with githubCalls := initState.githubCalls ++
          [.createWorkflow wargsOk.repository wargsOk.name wargsOk.content] }) ∧
    addSecret coFailGitHub initState sargsOk 0 =
      (.error "failed to create secret: github error",
       { initState with githubCalls := initState.githubCalls ++
          [.createSecret sargsOk.repository sargsOk.name sargsOk.value
            sargsOk.visibility] }) ∧
    generateNodeProp coFailGitHub initState nargsOk 0 =
      (.error "failed to create nodeprop file: github error",
       { initState with
         uuidCtr := initState.uuidCtr + 1
         githubCalls := initState.githubCalls ++
          [.createFile nargsOk.repoPath ".nodeprop.yml" "svc"] }) :=
  ⟨(manager_collaborator_failure_spec coFailGitHub initState wargsOk sargsOk
      nargsOk 0 "github error" "github error" "github error").1 rfl rfl rfl,
   (manager_collaborator_failure_spec coFailGitHub initState wargsOk sargsOk
      nargsOk 0 "github error" "github error" "github error").2.1 rfl rfl,
   (manager_collaborator_failure_spec coFailGitHub initState wargsOk sargsOk
      nargsOk 0 "github error" "github error" "github error").2.2 "svc" rfl rfl
     rfl rfl⟩

/-- NodePropGenerated event built from the uuid at supply position c0 and
the call's arguments, the event GenerateNodeProp emits on success. -/
def genEvent (co : Collaborators) (c0 : Nat) (args : NodePropArguments)
    (now : Int) : MgrEvent :=
  { type := EventTypeNodeProp, name := "NodePropGenerated"
    data := MgrData.nodePropData
      (mkNodePropFile (co.uuids c0) args (co.formatTime now)) }

/-- Sequence of GenerateNodeProp calls, each threaded through the state the
previous call produced. -/
def runGenerate (co : Collaborators) :
    ManagerState → List (NodePropArguments × Int) → ManagerState
  | s, [] => s
  | s, (args, now) :: rest => runGenerate co (generateNodeProp co s args now).2 rest

/-- Events a run of successful GenerateNodeProp calls appends, starting at
uuid supply position c0. -/
def expectedEvents (co : Collaborators) :
    Nat → List (NodePropArguments × Int) → List MgrEvent
  | _, [] => []
  | c0, (args, now) :: rest => genEvent co c0 args now :: expectedEvents co (c0 + 1) rest

/-- Descriptor id carried by an event (empty for non-descriptor data). -/
def descId (e : MgrEvent) : String :=
  match e.data with
  | .nodePropData f => f.id
  | _ => ""

/-- Successful GenerateNodeProp call: descriptor validation, marshalling and
the file write all succeed, so the call consumes one uuid, records the file
write, caches the fresh descriptor and emits its NodePropGenerated event. -/
theorem generateNodeProp_ok (co : Collaborators) (marshalOut : NodePropFile → String)
    (hVA : ∀ a, co.validateNodePropArgs a = none)
    (hVN : ∀ f, co.validateNodeProp f = none)
    (hM : ∀ f, co.yamlMarshal f = .ok (marshalOut f))
    (hCF : ∀ p n d, co.createFileRes p n d = none)
    (s : ManagerState) (args : NodePropArguments) (now : Int) :
    generateNodeProp co s args now =
      (.ok (),
       { s with
         uuidCtr := s.uuidCtr + 1
         githubCalls := s.githubCalls ++
          [.createFile args.repoPath ".nodeprop.yml"
            (marshalOut
              (mkNodePropFile (co.uuids s.uuidCtr) args (co.formatTime now)))]
         cache := Cache.set s.cache ("nodeprop:" ++ args.repoPath)
           (MgrData.nodePropData
             (mkNodePropFile (co.uuids s.uuidCtr) args (co.formatTime now)))
           oneHour now
         events := s.events ++ [genEvent co s.uuidCtr args now] }) := by
  simp [generateNodeProp, hVA, hVN, hM, hCF, genEvent]

/-- Events and uuid position after a run of successful GenerateNodeProp
calls: each call appends exactly its expected event and consumes exactly one
uuid. -/
theorem runGenerate_events (co : Collaborators) (marshalOut : NodePropFile → String)
    (hVA : ∀ a, co.validateNodePropArgs a = none)
    (hVN : ∀ f, co.validateNodeProp f = none)
    (hM : ∀ f, co.yamlMarshal f = .ok (marshalOut f))
    (hCF : ∀ p n d, co.createFileRes p n d = none) :
    ∀ (L : List (NodePropArguments × Int)) (s : ManagerState),
      (runGenerate co s L).events = s.events ++ expectedEvents co s.uuidCtr L ∧
      (runGenerate co s L).uuidCtr = s.uuidCtr + L.length := by
  intro L
  induction L with
  | nil => intro s; simp [runGenerate, expectedEvents]
  | cons p rest ih =>
    intro s
    obtain ⟨args, now⟩ := p
    have hrun : runGenerate co s ((args, now) :: rest) =
        runGenerate co (generateNodeProp co s args now).2 rest := rfl
    have hstep := generateNodeProp_ok co marshalOut hVA hVN hM hCF s args now
    constructor
    · rw [hrun, hstep, (ih _).1]
      simp [expectedEvents]
    · rw [hrun, hstep, (ih _).2]
      simp
      omega

/-- Descriptor ids of the expected events are the uuid supply read off at
consecutive positions. -/
theorem expectedEvents_descIds (co : Collaborators) :
    ∀ (L : List (NodePropArguments × Int)) (c0 : Nat),
      (expectedEvents co c0 L).map descId =
        (List.range L.length).map (fun i => co.uuids (c0 + i)) := by
  intro L
  induction L with
  | nil => intro c0; simp [expectedEvents]
  | cons p rest ih =>
    intro c0
    obtain ⟨args, now⟩ := p
    simp only [expectedEvents, List.map_cons, List.length_cons]
    rw [List.range_succ_eq_map]
    simp only [List.map_cons, List.map_map]
    have hhd : descId (genEvent co c0 args now) = co.uuids (c0 + 0) := rfl
    have htl : List.map descId (expectedEvents co (c0 + 1) rest) =
        List.map ((fun i => co.uuids (c0 + i)) ∘ Nat.succ) (List.range rest.length) := by
      rw [ih (c0 + 1)]
      have hfun : (fun i => co.uuids (c0 + 1 + i)) =
          ((fun i => co.uuids (c0 + i)) ∘ Nat.succ) := by
        funext i
        show co.uuids (c0 + 1 + i) = co.uuids (c0 + (i + 1))
        congr 1
        omega
      rw [hfun]
    rw [hhd, htl]

/-- Every expected event is a NodePropGenerated event built from the uuid at
one of the consumed supply positions. -/
theorem expectedEvents_mem (co : Collaborators) :
    ∀ (L : List (NodePropArguments × Int)) (c0 : Nat) (ev : MgrEvent),
      ev ∈ expectedEvents co c0 L →
      ∃ i, i < L.length ∧ ∃ args now, ev = genEvent co (c0 + i) args now := by
  intro L
  induction L with
  | nil => intro c0 ev hmem; simp [expectedEvents] at hmem
  | cons p rest ih =>
    intro c0 ev hmem
    obtain ⟨args, now⟩ := p
    rcases List.mem_cons.mp hmem with hhd | htl
    · exact ⟨0, by simp, args, now, hhd⟩
    · rcases ih (c0 + 1) ev htl with ⟨i, hi, args2, now2, hev⟩
      refine ⟨i + 1, by simpa using Nat.succ_lt_succ hi, args2, now2, ?_⟩
      rw [hev]
      congr 1
      omega

/-- C8: for a run of GenerateNodeProp calls whose oracles all succeed, every
call consumes exactly one fresh uuid and appends exactly one
NodePropGenerated event carrying a descriptor built fresh from that call's
arguments alone (mkNodePropFile mentions no prior file or state): the
descriptor's ID is the fresh uuid, its Name the RepoName, its
CustomProperties Domain the Domain and its Status active; and when the uuid
supply is injective and nonempty over the consumed positions, the run's
descriptor IDs are nonempty and pairwise distinct. -/
theorem manager_generate_descriptor_spec (co : Collaborators)
    (marshalOut : NodePropFile → String)
    (hVA : ∀ a, co.validateNodePropArgs a = none)
    (hVN : ∀ f, co.validateNodeProp f = none)
    (hM : ∀ f, co.yamlMarshal f = .ok (marshalOut f))
    (hCF : ∀ p n d, co.createFileRes p n d = none)
    (s : ManagerState) (L : List (NodePropArguments × Int))
    (hDist : ∀ i, i < L.length → ∀ j, j < L.length → i ≠ j →
      co.uuids (s.uuidCtr + i) ≠ co.uuids (s.uuidCtr + j))
    (hNE : ∀ i, i < L.length → co.uuids (s.uuidCtr + i) ≠ "") :
    (runGenerate co s L).events = s.events ++ expectedEvents co s.uuidCtr L ∧
    (runGenerate co s L).uuidCtr = s.uuidCtr + L.length ∧
    (∀ (id : String) (args : NodePropArguments) (nowStr : String),
      (mkNodePropFile id args nowStr).id = id ∧
      (mkNodePropFile id args nowStr).name = args.repoName ∧
      (mkNodePropFile id args nowStr).customProperties.domain = args.domain ∧
      (mkNodePropFile id args nowStr).status = "active") ∧
    (∀ ev ∈ expectedEvents co s.uuidCtr L,
      ev.name = "NodePropGenerated" ∧ ev.type = EventTypeNodeProp ∧
        descId ev ≠ "") ∧
    ((expectedEvents co s.uuidCtr L).map descId).Nodup := by
  refine ⟨(runGenerate_events co marshalOut hVA hVN hM hCF L s).1,
    (runGenerate_events co marshalOut hVA hVN hM hCF L s).2,
    fun id args nowStr => ⟨rfl, rfl, rfl, rfl⟩, ?_, ?_⟩
  · intro ev hmem
    rcases expectedEvents_mem co L s.uuidCtr ev hmem with ⟨i, hi, args, now, hev⟩
    rw [hev]
    exact ⟨rfl, rfl, hNE i hi⟩
  · rw [expectedEvents_descIds]
    refine List.Nodup.map_on ?_ (List.nodup_range _)
    intro x hx y hy hf
    by_contra hxy
    exact hDist x (List.mem_range.mp hx) y (List.mem_range.mp hy) hxy hf

/-- Collaborator stub whose oracles all succeed. -/
def coGen : Collaborators :=
  { validateWorkflowArgs := fun _ => none
    validateSecretArgs := fun _ => none
    validateNodePropArgs := fun _ => none
    validateNodeProp := fun _ => none
    processTemplate := fun _ _ => .ok ""
    yamlMarshal := fun f => .ok f.name
    createWorkflowRes := fun _ _ _ => none
    createSecretRes := fun _ _ _ _ => none
    createFileRes := fun _ _ _ => none
    storeSetRes := fun _ => none
    uuids := uuidsW
    formatTime := fun _ => "2026-01-01T00:00:00Z" }

/-- Second nodeprop argument set for the two-call run. -/
def nargs2 : NodePropArguments :=
  { repoPath := "p2", repoName := "svc2", domain := "example.org" }

/-- Two-call GenerateNodeProp run input. -/
def genRunArgs : List (NodePropArguments × Int) := [(nargsOk, 0), (nargs2, 5)]

/-- Witness for manager_generate_descriptor_spec on a concrete two-call
run. -/
theorem manager_generate_descriptor_spec_witness :
    (runGenerate coGen initState genRunArgs).events =
      initState.events ++ expectedEvents coGen initState.uuidCtr genRunArgs ∧
    (runGenerate coGen initState genRunArgs).uuidCtr =
      initState.uuidCtr + genRunArgs.length ∧
    (∀ (id : String) (args : NodePropArguments) (nowStr : String),
      (mkNodePropFile id args nowStr).id = id ∧
      (mkNodePropFile id args nowStr).name = args.repoName ∧
      (mkNodePropFile id args nowStr).customProperties.domain = args.domain ∧
      (mkNodePropFile id args nowStr).status = "active") ∧
    (∀ ev ∈ expectedEvents coGen initState.uuidCtr genRunArgs,
      ev.name = "NodePropGenerated" ∧ ev.type = EventTypeNodeProp ∧
        descId ev ≠ "") ∧
    ((expectedEvents coGen initState.uuidCtr genRunArgs).map descId).Nodup :=
  manager_generate_descriptor_spec coGen (fun f => f.name)
    (fun _ => rfl) (fun _ => rfl) (fun _ => rfl) (fun _ _ _ => rfl)
    initState genRunArgs (by decide) (by decide)
